import Mathlib

/-!
Shallow embedding of `src/utils/utils.py` (super-resolution data utilities):
the paired random-crop routine `random_crop`, the directory-backed paired
dataset `CustomDataset` (`__init__`, `__len__`, `__getitem__`), and the
checkpoint writer `save_checkpoint`.

Modelling conventions:
- A decoded RGB raster image (a PIL `Image` after `convert('RGB')`) is a
  `width × height` grid of three 8-bit channels.
- `random.randint` is driven by an explicit seed argument; every value it can
  yield corresponds to some seed, and an empty range is the Python
  `ValueError`.
- Tensors carry exact rational entries; `ToTensor()` divides 8-bit values
  by 255.
- The filesystem is explicit: directory listings and image decoding for the
  dataset, a directory/file store for the checkpoint writer. Python
  exceptions become `Except` errors named after the spec's error taxonomy,
  with the concrete Python exception noted at each constructor.
- Diagnostic `print` calls become an explicit log (a `List String`) in each
  function's result.
-/

set_option autoImplicit false

namespace SRUtils

/-- Image model: a decoded RGB raster image of size `width × height`.
`pix x y c` is the 8-bit value of channel `c` at column `x`, row `y`
(PIL's `img.size` is `(width, height)`, so `size[0]` is `width` and
`size[1]` is `height`). -/
structure Img where
  width : Nat
  height : Nat
  pix : Nat → Nat → Fin 3 → Fin 256

/-- Error taxonomy of the spec, with the concrete Python exception each
constructor models:
- `insufficientImageSize`: `ValueError` raised by `random.randint` on an
  empty range (image smaller than the required crop);
- `outOfRange`: `IndexError` from list subscripting;
- `imageLoad`: any exception from `Image.open(...).convert('RGB')`
  (file missing, corrupt, undecodable);
- `fileExists`: `FileExistsError` from `os.makedirs` on an existing path. -/
inductive PyError where
  | insufficientImageSize
  | outOfRange
  | imageLoad
  | fileExists
deriving DecidableEq

/-- Model of Python `random.randint(lo, hi)` driven by an explicit seed `r`:
it raises `ValueError` (modelled `insufficientImageSize`) when `hi < lo`,
and otherwise returns a value in `[lo, hi]`; every value of that range is
realized by some seed. -/
def randint (lo hi : Int) (r : Nat) : Except PyError Int :=
  if hi < lo then .error .insufficientImageSize
  else .ok (lo + (r : Int) % (hi - lo + 1))

/-- Model of PIL `Image.crop((l, u, r, d))`: the result has size
`(r - l) × (d - u)`, and its pixel `(x, y)` is the source pixel
`(l + x, u + y)` when that lies inside the source, else black
(PIL fills regions outside the source with zeros). -/
def Img.cropBox (img : Img) (l u r d : Int) : Img where
  width := (r - l).toNat
  height := (d - u).toNat
  pix := fun x y c =>
    if 0 ≤ l + (x : Int) ∧ l + (x : Int) < (img.width : Int) ∧
        0 ≤ u + (y : Int) ∧ u + (y : Int) < (img.height : Int) then
      img.pix (l + (x : Int)).toNat (u + (y : Int)).toNat c
    else 0

/-- Channel-first image tensor of shape `(channels, height, width)`;
`val c y x` is the entry at channel `c`, row `y`, column `x`. -/
structure Tensor3 where
  channels : Nat
  height : Nat
  width : Nat
  val : Fin 3 → Nat → Nat → ℚ

/-- Model of torchvision `ToTensor()` applied to an RGB image: a
channel-first `(3, H, W)` tensor whose entries are the 8-bit pixel values
divided by 255 (hence in `[0, 1]`). -/
def toTensor (img : Img) : Tensor3 where
  channels := 3
  height := img.height
  width := img.width
  val := fun c y x => ((img.pix x y c : Nat) : ℚ) / 255

/-- Crop-coordinate computation of `random_crop` (`utils.py` lines 14-20):
draw `lowres_x` from `randint(0, lowres_img.size[0] - lowres_crop_size)` and
`lowres_y` from `randint(0, lowres_img.size[1] - lowres_crop_size)`, then set
`highres_x = lowres_x * scale` and `highres_y = lowres_y * scale`. -/
def random_crop_coords (lowres_img : Img) (lowres_crop_size scale : Nat)
    (r1 r2 : Nat) : Except PyError (Int × Int × Int × Int) :=
  match randint 0 ((lowres_img.width : Int) - (lowres_crop_size : Int)) r1 with
  | .error e => .error e
  | .ok lowres_x =>
    match randint 0 ((lowres_img.height : Int) - (lowres_crop_size : Int)) r2 with
    | .error e => .error e
    | .ok lowres_y =>
      .ok (lowres_x, lowres_y, lowres_x * (scale : Int), lowres_y * (scale : Int))

/-- Model of `random_crop(lowres_img, highres_img, hr_crop_size, scale)`
(`utils.py` lines 10-30): `lowres_crop_size = hr_crop_size // scale` (Python
floor division), random coordinates as in `random_crop_coords`, crop both
images, and convert both crops with `ToTensor()`. The seeds `r1, r2` stand
for the two draws from the process-global random source. -/
def random_crop (lowres_img highres_img : Img) (hr_crop_size scale : Nat)
    (r1 r2 : Nat) : Except PyError (Tensor3 × Tensor3) :=
  let lowres_crop_size := hr_crop_size / scale
  match random_crop_coords lowres_img lowres_crop_size scale r1 r2 with
  | .error e => .error e
  | .ok (lowres_x, lowres_y, highres_x, highres_y) =>
    let lowres_img_cropped := lowres_img.cropBox lowres_x lowres_y
      (lowres_x + (lowres_crop_size : Int)) (lowres_y + (lowres_crop_size : Int))
    let highres_img_cropped := highres_img.cropBox highres_x highres_y
      (highres_x + (hr_crop_size : Int)) (highres_y + (hr_crop_size : Int))
    .ok (toTensor lowres_img_cropped, toTensor highres_img_cropped)

/-- Model of `os.path.join(dir, name)` for the simple relative names used
here. -/
def joinPath (dir name : String) : String := dir ++ "/" ++ name

/-- Filesystem view used by the dataset: `listdir` models `os.listdir`,
`openImage` models `Image.open(path).convert('RGB')`, with `none` standing
for any open/decode failure. -/
structure FS where
  listdir : String → List String
  openImage : String → Option Img

/-- Extension filter of `CustomDataset.__init__`:
`f.endswith(('.png', '.jpg', '.jpeg'))` (case-sensitive). -/
def isImageFile (f : String) : Bool :=
  f.endsWith ".png" || f.endsWith ".jpg" || f.endsWith ".jpeg"

/-- State of a `CustomDataset` instance: the fields set in `__init__`. -/
structure CustomDataset where
  lowres_dir : String
  highres_dir : String
  image_files : List String
  hr_crop_size : Nat
  scale : Nat
deriving DecidableEq

/-- Model of `CustomDataset.__init__` (`utils.py` lines 34-46): list
`lowres_dir`, keep the names with a recognized image extension, store the
configuration, and print one diagnostic line (returned here as the log). -/
def CustomDataset.init (fs : FS) (lowres_dir highres_dir : String)
    (hr_crop_size scale : Nat) : CustomDataset × List String :=
  let image_files := (fs.listdir lowres_dir).filter isImageFile
  let ds : CustomDataset :=
    ⟨lowres_dir, highres_dir, image_files, hr_crop_size, scale⟩
  let log :=
    if image_files.length = 0 then
      ["No image files found in " ++ lowres_dir ++
        ". Please check the directory and file formats."]
    else
      ["Found " ++ toString image_files.length ++ " image files in " ++ lowres_dir]
  (ds, log)

/-- Model of `CustomDataset.__len__`: `len(self.image_files)`. -/
def CustomDataset.len (ds : CustomDataset) : Nat := ds.image_files.length

/-- Python list subscripting `xs[idx]` with an `Int` index: indices in
`[0, len)` address from the front, indices in `[-len, 0)` address from the
back (`xs[len + idx]`), and anything else raises `IndexError`
(modelled `outOfRange`). -/
def pyIndex (xs : List String) (idx : Int) : Except PyError String :=
  if 0 ≤ idx ∧ idx < (xs.length : Int) then
    .ok (xs.getD idx.toNat "")
  else if -(xs.length : Int) ≤ idx ∧ idx < 0 then
    .ok (xs.getD ((xs.length : Int) + idx).toNat "")
  else
    .error .outOfRange

/-- Diagnostic printed by `__getitem__` when `Image.open` fails:
`f"Error loading image {lowres_path} or {highres_path}: {e}"` (the trailing
exception text is elided in the model). -/
def loadErrorLine (lowres_path highres_path : String) : String :=
  "Error loading image " ++ lowres_path ++ " or " ++ highres_path

/-- Model of `CustomDataset.__getitem__(idx)` (`utils.py` lines 52-69),
with explicit state passing: the result triple is the dataset state after
the call, the returned sample (or the propagated exception), and the lines
printed during the call. Steps, in source order: subscript
`self.image_files[idx]`, build both paths with `os.path.join`, open both
images (on failure print the diagnostic with both paths and re-raise),
then delegate to `random_crop` with the stored `hr_crop_size` and `scale`. -/
def CustomDataset.getitem (ds : CustomDataset) (fs : FS) (idx : Int)
    (r1 r2 : Nat) :
    CustomDataset × Except PyError (Tensor3 × Tensor3) × List String :=
  match pyIndex ds.image_files idx with
  | .error e => (ds, .error e, [])
  | .ok fname =>
    let lowres_path := joinPath ds.lowres_dir fname
    let highres_path := joinPath ds.highres_dir fname
    match fs.openImage lowres_path with
    | none => (ds, .error .imageLoad, [loadErrorLine lowres_path highres_path])
    | some lowres_image =>
      match fs.openImage highres_path with
      | none => (ds, .error .imageLoad, [loadErrorLine lowres_path highres_path])
      | some highres_image =>
        match random_crop lowres_image highres_image ds.hr_crop_size ds.scale r1 r2 with
        | .error e => (ds, .error e, [])
        | .ok pair => (ds, .ok pair, [])

/-- Serialized checkpoint record written by `save_checkpoint`: the dict
`{'model_state_dict': ..., 'optimizer_state_dict': ..., 'epoch': ...}`.
`M` and `O` abstract the framework-owned model and optimizer state dicts. -/
structure CheckpointRecord (M O : Type) where
  model_state_dict : M
  optimizer_state_dict : O
  epoch : Nat

/-- Filesystem state seen by the checkpoint writer: existing directories and
the files written so far (`torch.save` targets). -/
structure CkptFS (M O : Type) where
  dirs : List String
  files : List (String × CheckpointRecord M O)

/-- Model of `os.makedirs(d)` (no `exist_ok`): raises `FileExistsError`
if the directory already exists, else creates it. -/
def os_makedirs {M O : Type} (d : String) (fs : CkptFS M O) :
    Except PyError (CkptFS M O) :=
  if d ∈ fs.dirs then .error .fileExists
  else .ok { fs with dirs := d :: fs.dirs }

/-- Model of `save_checkpoint(model, optimizer, checkpoint_dir, epoch)`
(`utils.py` lines 78-89): create `checkpoint_dir` unless it exists, build
`checkpoint_path = os.path.join(checkpoint_dir,
f'model_epoch_{epoch}_64_numfeatures.pth')`, write the record there with
`torch.save`, and print the confirmation line. `model` and `optimizer`
stand for the values of `model.state_dict()` and `optimizer.state_dict()`.
Returns the new filesystem state, the path written, and the log. -/
def save_checkpoint {M O : Type} (model : M) (optimizer : O)
    (checkpoint_dir : String) (epoch : Nat) (fs : CkptFS M O) :
    Except PyError (CkptFS M O × String × List String) :=
  match (if checkpoint_dir ∈ fs.dirs then .ok fs else os_makedirs checkpoint_dir fs :
      Except PyError (CkptFS M O)) with
  | .error e => .error e
  | .ok fs1 =>
    let checkpoint_path :=
      joinPath checkpoint_dir ("model_epoch_" ++ toString epoch ++ "_64_numfeatures.pth")
    let record : CheckpointRecord M O := ⟨model, optimizer, epoch⟩
    .ok ({ fs1 with files := (checkpoint_path, record) :: fs1.files },
      checkpoint_path,
      ["Checkpoint saved at " ++ checkpoint_path])

/-- Boolean success test on `Except`. -/
def exceptIsOk {ε α : Type} : Except ε α → Bool
  | .ok _ => true
  | .error _ => false

/-- Concrete 8 × 8 all-black image, used at witness inputs. -/
def img8 : Img := ⟨8, 8, fun _ _ _ => 0⟩

/-- Concrete 1 × 1 image, too small for the witness crops. -/
def img1 : Img := ⟨1, 1, fun _ _ _ => 0⟩

/-- Concrete dataset state: one file `a.png`, crop 4, scale 2. -/
def ds0 : CustomDataset := ⟨"lr", "hr", ["a.png"], 4, 2⟩

/-- Concrete filesystem where every path decodes to `img8`. -/
def fs0 : FS := ⟨fun _ => ["a.png"], fun _ => some img8⟩

/-- Concrete filesystem where every image open fails. -/
def fsNone : FS := ⟨fun _ => ["a.png"], fun _ => none⟩

/-! ### Helper lemmas -/

/-- A `randint` call on a nonempty range succeeds. -/
theorem randint_ok (lo hi : Int) (r : Nat) (h : lo ≤ hi) :
    randint lo hi r = .ok (lo + (r : Int) % (hi - lo + 1)) := by
  unfold randint
  rw [if_neg (not_lt.mpr h)]

/-- Every entry of a `ToTensor()` result lies in `[0, 1]`. -/
theorem toTensor_val_mem_unit (img : Img) (c : Fin 3) (y x : Nat) :
    0 ≤ (toTensor img).val c y x ∧ (toTensor img).val c y x ≤ 1 := by
  unfold toTensor
  constructor
  · positivity
  · rw [div_le_one (by norm_num)]
    have h : ((img.pix x y c : Nat) : Nat) ≤ 255 := Nat.lt_succ_iff.mp (img.pix x y c).isLt
    exact_mod_cast h

/-- Crop-size arithmetic: the extent `(a + c) - a` of a crop box is `c`. -/
theorem toNat_add_sub_cancel (a : Int) (c : Nat) : (a + (c : Int) - a).toNat = c := by
  omega

/-- Core behaviour of `random_crop` on a low-res image at least as large as
the low-res crop: it succeeds, the low-res tensor is
`(3, hr_crop_size // scale, hr_crop_size // scale)`, the high-res tensor is
`(3, hr_crop_size, hr_crop_size)`, and all entries lie in `[0, 1]`. -/
theorem random_crop_ok (li hi_img : Img) (hr_crop_size scale r1 r2 : Nat)
    (hw : hr_crop_size / scale ≤ li.width) (hh : hr_crop_size / scale ≤ li.height) :
    ∃ tL tH, random_crop li hi_img hr_crop_size scale r1 r2 = .ok (tL, tH) ∧
      tL.channels = 3 ∧ tL.height = hr_crop_size / scale ∧
      tL.width = hr_crop_size / scale ∧
      tH.channels = 3 ∧ tH.height = hr_crop_size ∧ tH.width = hr_crop_size ∧
      (∀ c y x, 0 ≤ tL.val c y x ∧ tL.val c y x ≤ 1) ∧
      (∀ c y x, 0 ≤ tH.val c y x ∧ tH.val c y x ≤ 1) := by
  have hx := randint_ok 0 ((li.width : Int) - ((hr_crop_size / scale : Nat) : Int)) r1
    (by omega)
  have hy := randint_ok 0 ((li.height : Int) - ((hr_crop_size / scale : Nat) : Int)) r2
    (by omega)
  set xv : Int :=
    0 + (r1 : Int) % ((li.width : Int) - ((hr_crop_size / scale : Nat) : Int) - 0 + 1)
    with hxv
  set yv : Int :=
    0 + (r2 : Int) % ((li.height : Int) - ((hr_crop_size / scale : Nat) : Int) - 0 + 1)
    with hyv
  refine ⟨toTensor (li.cropBox xv yv (xv + ((hr_crop_size / scale : Nat) : Int))
      (yv + ((hr_crop_size / scale : Nat) : Int))),
    toTensor (hi_img.cropBox (xv * (scale : Int)) (yv * (scale : Int))
      (xv * (scale : Int) + (hr_crop_size : Int))
      (yv * (scale : Int) + (hr_crop_size : Int))),
    ?_, rfl, ?_, ?_, rfl, ?_, ?_,
    fun c y x => toTensor_val_mem_unit _ c y x,
    fun c y x => toTensor_val_mem_unit _ c y x⟩
  · simp only [random_crop, random_crop_coords, hx, hy]
  · simp only [toTensor, Img.cropBox]
    exact toNat_add_sub_cancel yv (hr_crop_size / scale)
  · simp only [toTensor, Img.cropBox]
    exact toNat_add_sub_cancel xv (hr_crop_size / scale)
  · simp only [toTensor, Img.cropBox]
    exact toNat_add_sub_cancel (yv * (scale : Int)) hr_crop_size
  · simp only [toTensor, Img.cropBox]
    exact toNat_add_sub_cancel (xv * (scale : Int)) hr_crop_size

/-! ### Claims -/

/-- Claim C1: for every pair of images and every configuration with
`crop_size_hr` and `scale` positive, `crop_size_hr % scale == 0`, and both
images at least as large as their required crop, `random_crop` returns a
low-res tensor of shape `(3, crop_size_hr/scale, crop_size_hr/scale)` and a
high-res tensor of shape `(3, crop_size_hr, crop_size_hr)`, channel-first,
with every value in `[0, 1]`. -/
theorem random_crop_shapes_and_range (li hi_img : Img)
    (hr_crop_size scale r1 r2 : Nat)
    (hcrop : 0 < hr_crop_size) (hscale : 0 < scale)
    (hdiv : hr_crop_size % scale = 0)
    (hlw : hr_crop_size / scale ≤ li.width) (hlh : hr_crop_size / scale ≤ li.height)
    (hhw : hr_crop_size ≤ hi_img.width) (hhh : hr_crop_size ≤ hi_img.height) :
    ∃ tL tH, random_crop li hi_img hr_crop_size scale r1 r2 = .ok (tL, tH) ∧
      tL.channels = 3 ∧ tL.height = hr_crop_size / scale ∧
      tL.width = hr_crop_size / scale ∧
      tH.channels = 3 ∧ tH.height = hr_crop_size ∧ tH.width = hr_crop_size ∧
      (∀ c y x, 0 ≤ tL.val c y x ∧ tL.val c y x ≤ 1) ∧
      (∀ c y x, 0 ≤ tH.val c y x ∧ tH.val c y x ≤ 1) :=
  random_crop_ok li hi_img hr_crop_size scale r1 r2 hlw hlh

/-- Witness for C1 at a concrete input: an 8 × 8 pair with
`hr_crop_size = 4`, `scale = 2`. -/
theorem random_crop_shapes_and_range_witness :
    ∃ tL tH, random_crop img8 img8 4 2 0 0 = .ok (tL, tH) ∧
      tL.channels = 3 ∧ tL.height = 4 / 2 ∧ tL.width = 4 / 2 ∧
      tH.channels = 3 ∧ tH.height = 4 ∧ tH.width = 4 ∧
      (∀ c y x, 0 ≤ tL.val c y x ∧ tL.val c y x ≤ 1) ∧
      (∀ c y x, 0 ≤ tH.val c y x ∧ tH.val c y x ≤ 1) :=
  random_crop_shapes_and_range img8 img8 4 2 0 0 (by decide) (by decide)
    (by decide) (by decide) (by decide) (by decide) (by decide)

/-- Claim C2: for every execution of the crop-coordinate computation (every
value the random source can yield), the high-res crop origin equals the
low-res origin scaled by the factor: `x_hr = x_lr * scale` and
`y_hr = y_lr * scale`. -/
theorem random_crop_coords_correspond (li : Img) (lowres_crop_size scale : Nat)
    (r1 r2 : Nat) (lx ly hx hy : Int)
    (h : random_crop_coords li lowres_crop_size scale r1 r2 = .ok (lx, ly, hx, hy)) :
    hx = lx * (scale : Int) ∧ hy = ly * (scale : Int) := by
  unfold random_crop_coords at h
  split at h
  · simp at h
  · split at h
    · simp at h
    · simp only [Except.ok.injEq, Prod.mk.injEq] at h
      obtain ⟨rfl, rfl, rfl, rfl⟩ := h
      exact ⟨rfl, rfl⟩

/-- Witness for C2 at a concrete input: on an 8 × 8 image with crop 2,
scale 2 and seeds 3, 5 the coordinates are `(3, 5, 6, 10)`. -/
theorem random_crop_coords_correspond_witness :
    (6 : Int) = (3 : Int) * ((2 : Nat) : Int) ∧
      (10 : Int) = (5 : Int) * ((2 : Nat) : Int) :=
  random_crop_coords_correspond img8 2 2 3 5 3 5 6 10 rfl

/-- Claim C3: whenever the low-res image is smaller than the required
low-res crop in either dimension, `random_crop` fails explicitly with the
insufficient-image-size error (Python: `ValueError` from `random.randint`
on an empty range); it never clamps, wraps, or returns a malformed crop. -/
theorem random_crop_small_image_error (li hi_img : Img)
    (hr_crop_size scale r1 r2 : Nat)
    (h : li.width < hr_crop_size / scale ∨ li.height < hr_crop_size / scale) :
    random_crop li hi_img hr_crop_size scale r1 r2 =
      .error .insufficientImageSize := by
  by_cases hw : li.width < hr_crop_size / scale
  · have e1 : randint 0 ((li.width : Int) - ((hr_crop_size / scale : Nat) : Int)) r1 =
        .error .insufficientImageSize := by
      unfold randint
      rw [if_pos (by omega)]
    simp only [random_crop, random_crop_coords, e1]
  · have hh : li.height < hr_crop_size / scale := h.resolve_left hw
    have e1 := randint_ok 0 ((li.width : Int) - ((hr_crop_size / scale : Nat) : Int)) r1
      (by omega)
    have e2 : randint 0 ((li.height : Int) - ((hr_crop_size / scale : Nat) : Int)) r2 =
        .error .insufficientImageSize := by
      unfold randint
      rw [if_pos (by omega)]
    simp only [random_crop, random_crop_coords, e1, e2]

/-- Witness for C3 at a concrete input: a 1 × 1 low-res image with
`hr_crop_size = 4`, `scale = 2` (required low-res crop 2). -/
theorem random_crop_small_image_error_witness :
    random_crop img1 img8 4 2 0 0 = .error .insufficientImageSize :=
  random_crop_small_image_error img1 img8 4 2 0 0 (Or.inl (by decide))

/-- Claim C10: `random_crop` never checks divisibility of `hr_crop_size` by
`scale`: for positive sizes with `hr_crop_size % scale ≠ 0` and a low-res
image large enough, it still succeeds, producing a low-res crop of size
`hr_crop_size // scale` (floor division) and a high-res crop of size
`hr_crop_size`, without signalling any error. -/
theorem random_crop_no_divisibility_check (li hi_img : Img)
    (hr_crop_size scale r1 r2 : Nat)
    (hcrop : 0 < hr_crop_size) (hscale : 0 < scale)
    (hdiv : hr_crop_size % scale ≠ 0)
    (hlw : hr_crop_size / scale ≤ li.width)
    (hlh : hr_crop_size / scale ≤ li.height) :
    ∃ tL tH, random_crop li hi_img hr_crop_size scale r1 r2 = .ok (tL, tH) ∧
      tL.height = hr_crop_size / scale ∧ tL.width = hr_crop_size / scale ∧
      tH.height = hr_crop_size ∧ tH.width = hr_crop_size := by
  obtain ⟨tL, tH, hok, _, h1, h2, _, h3, h4, _, _⟩ :=
    random_crop_ok li hi_img hr_crop_size scale r1 r2 hlw hlh
  exact ⟨tL, tH, hok, h1, h2, h3, h4⟩

/-- Witness for C10 at a concrete input: `hr_crop_size = 5`, `scale = 2`
(not divisible) on an 8 × 8 pair; the low-res crop is `5 / 2 = 2`. -/
theorem random_crop_no_divisibility_check_witness :
    ∃ tL tH, random_crop img8 img8 5 2 0 0 = .ok (tL, tH) ∧
      tL.height = 5 / 2 ∧ tL.width = 5 / 2 ∧ tH.height = 5 ∧ tH.width = 5 :=
  random_crop_no_divisibility_check img8 img8 5 2 0 0 (by decide) (by decide)
    (by decide) (by decide) (by decide)

/-- Claim C4 fails on the code at a concrete input (Python negative
indexing): for the one-file dataset `ds0`, the index `-1` lies outside
`[0, length())`, yet `__getitem__` returns a sample instead of raising
`IndexError`. -/
theorem getitem_out_of_range_counterexample :
    ¬(0 ≤ (-1 : Int) ∧ (-1 : Int) < (ds0.len : Int)) ∧
      exceptIsOk (ds0.getitem fs0 (-1) 0 0).2.1 = true :=
  ⟨by decide, by decide⟩

/-- Claim C4 (amended): `__getitem__` raises `IndexError` (the spec's
`OutOfRangeError`) exactly when the index is outside `[-length(), length())`;
indices in `[-length(), 0)` are resolved by Python negative indexing. This
theorem proves the raising half: every index at or above `length()`, or
below `-length()`, yields the out-of-range error and no sample. -/
theorem getitem_out_of_range_error (ds : CustomDataset) (fs : FS) (idx : Int)
    (r1 r2 : Nat) (h : (ds.len : Int) ≤ idx ∨ idx < -(ds.len : Int)) :
    (ds.getitem fs idx r1 r2).2.1 = .error .outOfRange := by
  simp only [CustomDataset.len] at h
  have e : pyIndex ds.image_files idx = .error .outOfRange := by
    unfold pyIndex
    rw [if_neg (by omega), if_neg (by omega)]
  simp [CustomDataset.getitem, e]

/-- Witness for amended C4 at a concrete input: index 5 on the one-file
dataset `ds0`. -/
theorem getitem_out_of_range_error_witness :
    (ds0.getitem fs0 5 0 0).2.1 = .error .outOfRange :=
  getitem_out_of_range_error ds0 fs0 5 0 0 (Or.inl (by decide))

/-- Claim C5: for every directory contents of `lowres_dir`, the dataset
length equals the number of entries whose name ends in `.png`, `.jpg`, or
`.jpeg` (case-sensitive); entries with other extensions are not counted. -/
theorem custom_dataset_len_counts_image_files (fs : FS)
    (lowres_dir highres_dir : String) (hr_crop_size scale : Nat) :
    (CustomDataset.init fs lowres_dir highres_dir hr_crop_size scale).1.len =
      (fs.listdir lowres_dir).countP
        (fun f => f.endsWith ".png" || f.endsWith ".jpg" || f.endsWith ".jpeg") := by
  simp only [CustomDataset.init, CustomDataset.len]
  rw [List.countP_eq_length_filter]
  rfl

/-- Claim C6: for every in-range index whose low-res or high-res file fails
to open or decode, `__getitem__` prints one diagnostic containing both the
low-res and high-res paths and re-raises the error (the spec's
`ImageLoadError`); no sample is returned, the state is unchanged, and no
retry is performed. -/
theorem getitem_load_failure_logs_and_raises (ds : CustomDataset) (fs : FS)
    (idx : Int) (r1 r2 : Nat) (fname : String)
    (hidx : pyIndex ds.image_files idx = .ok fname)
    (hfail : fs.openImage (joinPath ds.lowres_dir fname) = none ∨
      fs.openImage (joinPath ds.highres_dir fname) = none) :
    ds.getitem fs idx r1 r2 =
      (ds, .error .imageLoad,
        [loadErrorLine (joinPath ds.lowres_dir fname)
          (joinPath ds.highres_dir fname)]) := by
  rcases hfail with hf | hf
  · simp [CustomDataset.getitem, hidx, hf]
  · cases hlo : fs.openImage (joinPath ds.lowres_dir fname) with
    | none => simp [CustomDataset.getitem, hidx, hlo]
    | some li => simp [CustomDataset.getitem, hidx, hlo, hf]

/-- Witness for C6 at a concrete input: the one-file dataset over a
filesystem where every image open fails. -/
theorem getitem_load_failure_logs_and_raises_witness :
    ds0.getitem fsNone 0 0 0 =
      (ds0, .error .imageLoad,
        [loadErrorLine (joinPath ds0.lowres_dir "a.png")
          (joinPath ds0.highres_dir "a.png")]) :=
  getitem_load_failure_logs_and_raises ds0 fsNone 0 0 0 "a.png" rfl (Or.inl rfl)

/-- Full behaviour of one `save_checkpoint` call: it always succeeds,
creating the directory exactly when it was absent and pushing the record at
the deterministic path. -/
theorem save_checkpoint_eq {M O : Type} (model : M) (optimizer : O)
    (checkpoint_dir : String) (epoch : Nat) (fs : CkptFS M O) :
    save_checkpoint model optimizer checkpoint_dir epoch fs =
      .ok (⟨if checkpoint_dir ∈ fs.dirs then fs.dirs else checkpoint_dir :: fs.dirs,
          (joinPath checkpoint_dir
              ("model_epoch_" ++ toString epoch ++ "_64_numfeatures.pth"),
            ⟨model, optimizer, epoch⟩) :: fs.files⟩,
        joinPath checkpoint_dir
          ("model_epoch_" ++ toString epoch ++ "_64_numfeatures.pth"),
        ["Checkpoint saved at " ++
          joinPath checkpoint_dir
            ("model_epoch_" ++ toString epoch ++ "_64_numfeatures.pth")]) := by
  by_cases h : checkpoint_dir ∈ fs.dirs <;>
    simp [save_checkpoint, os_makedirs, h]

/-- Claim C7: `save_checkpoint` ensures the checkpoint directory exists
(creating it if absent), writes the record to the deterministically named
file `model_epoch_<epoch>_64_numfeatures.pth` under that directory, and is
idempotent with respect to directory creation: a second call on the
resulting state (where the directory now exists) also succeeds. -/
theorem save_checkpoint_creates_writes_idempotent {M O : Type} (model : M)
    (optimizer : O) (checkpoint_dir : String) (epoch : Nat) (fs : CkptFS M O) :
    ∃ fs1 log1,
      save_checkpoint model optimizer checkpoint_dir epoch fs =
        .ok (fs1,
          joinPath checkpoint_dir
            ("model_epoch_" ++ toString epoch ++ "_64_numfeatures.pth"),
          log1) ∧
      checkpoint_dir ∈ fs1.dirs ∧
      (joinPath checkpoint_dir
          ("model_epoch_" ++ toString epoch ++ "_64_numfeatures.pth"),
        (⟨model, optimizer, epoch⟩ : CheckpointRecord M O)) ∈ fs1.files ∧
      ∃ fs2 log2,
        save_checkpoint model optimizer checkpoint_dir epoch fs1 =
          .ok (fs2,
            joinPath checkpoint_dir
              ("model_epoch_" ++ toString epoch ++ "_64_numfeatures.pth"),
            log2) := by
  refine ⟨_, _, save_checkpoint_eq model optimizer checkpoint_dir epoch fs,
    ?_, List.mem_cons_self _ _, _, _,
    save_checkpoint_eq model optimizer checkpoint_dir epoch _⟩
  by_cases h : checkpoint_dir ∈ fs.dirs <;> simp [h]

/-- Claim C8: `__getitem__` performs no mutation of the dataset's stored
state (`lowres_dir`, `highres_dir`, the enumerated filename list,
`hr_crop_size`, `scale`): the state after any call equals the state
before it. -/
theorem getitem_preserves_state (ds : CustomDataset) (fs : FS) (idx : Int)
    (r1 r2 : Nat) : (ds.getitem fs idx r1 r2).1 = ds := by
  cases h1 : pyIndex ds.image_files idx with
  | error e => simp [CustomDataset.getitem, h1]
  | ok fname =>
    cases h2 : fs.openImage (joinPath ds.lowres_dir fname) with
    | none => simp [CustomDataset.getitem, h1, h2]
    | some li =>
      cases h3 : fs.openImage (joinPath ds.highres_dir fname) with
      | none => simp [CustomDataset.getitem, h1, h2, h3]
      | some hi_img =>
        cases h4 : random_crop li hi_img ds.hr_crop_size ds.scale r1 r2 with
        | error e => simp [CustomDataset.getitem, h1, h2, h3, h4]
        | ok pair => simp [CustomDataset.getitem, h1, h2, h3, h4]

/-- Claim C9: for every dataset with `length() = n > 0` and every negative
index `idx` with `-n ≤ idx < 0`, `__getitem__` does not raise out-of-range:
it behaves exactly as the call at index `n + idx` (so it resolves that
entry's paths), and, when both files decode and the low-res image is large
enough for the crop, it returns that entry's cropped tensor pair. -/
theorem getitem_negative_index (ds : CustomDataset) (fs : FS) (idx : Int)
    (r1 r2 : Nat) (li hi_img : Img)
    (hn : 0 < ds.len)
    (hlo : -(ds.len : Int) ≤ idx) (hup : idx < 0)
    (hopenl : fs.openImage (joinPath ds.lowres_dir
        (ds.image_files.getD ((ds.len : Int) + idx).toNat "")) = some li)
    (hopenh : fs.openImage (joinPath ds.highres_dir
        (ds.image_files.getD ((ds.len : Int) + idx).toNat "")) = some hi_img)
    (hw : ds.hr_crop_size / ds.scale ≤ li.width)
    (hh : ds.hr_crop_size / ds.scale ≤ li.height) :
    ds.getitem fs idx r1 r2 = ds.getitem fs ((ds.len : Int) + idx) r1 r2 ∧
      ∃ pair, (ds.getitem fs idx r1 r2).2.1 = .ok pair := by
  simp only [CustomDataset.len] at hn hlo hopenl hopenh
  have e1 : pyIndex ds.image_files idx =
      .ok (ds.image_files.getD (((ds.image_files.length : Int) + idx).toNat) "") := by
    unfold pyIndex
    rw [if_neg (by omega), if_pos ⟨by omega, hup⟩]
  have e2 : pyIndex ds.image_files ((ds.image_files.length : Int) + idx) =
      .ok (ds.image_files.getD (((ds.image_files.length : Int) + idx).toNat) "") := by
    unfold pyIndex
    rw [if_pos ⟨by omega, by omega⟩]
  obtain ⟨tL, tH, hok, -⟩ :=
    random_crop_ok li hi_img ds.hr_crop_size ds.scale r1 r2 hw hh
  constructor
  · simp only [CustomDataset.getitem, CustomDataset.len, e1, e2]
  · exact ⟨(tL, tH), by
      simp only [CustomDataset.getitem, CustomDataset.len, e1, hopenl, hopenh, hok]⟩

/-- Witness for C9 at a concrete input: index `-1` on the one-file dataset
`ds0` over the filesystem `fs0` of 8 × 8 images. -/
theorem getitem_negative_index_witness :
    ds0.getitem fs0 (-1) 0 0 = ds0.getitem fs0 ((ds0.len : Int) + -1) 0 0 ∧
      ∃ pair, (ds0.getitem fs0 (-1) 0 0).2.1 = .ok pair :=
  getitem_negative_index ds0 fs0 (-1) 0 0 img8 img8 (by decide) (by decide)
    (by decide) rfl rfl (by decide) (by decide)

end SRUtils
